import Mathlib

/-!
Verification of the setup orchestration sequencer in `scripts/setup.py`.

The script shells out to `npm` in two sub-project directories (`backend`,
`frontend`), gated on presence of the per-unit `package.json` manifest,
accumulating an overall success flag with `success &= run_command(...)`
and exiting with status 1 when any executed step failed.

Shallow embedding: the external world is a `World` record giving the two
manifest-presence facts and, for each step, the outcome the operating
system would produce for it (process completed with an exit code and
captured stderr, or the process could not be launched at all, which in
the Python source is the `except Exception` branch).  `run_command` and
`main` are translated as pure functions over that world; console output
is modelled as a list of print events (`OutLine`), one constructor per
distinct `print` in the source.
-/

namespace Oasis

/-- Outcome the external world produces for one spawned command:
either the process ran to completion with an exit code and captured
stderr text, or process creation itself failed (the `except Exception`
branch in `run_command`). -/
inductive ExecResult where
  | completed (exitCode : Int) (stderrText : String)
  | launchFailure (message : String)
deriving DecidableEq

/-- One external command bound to a working directory, as passed to
`run_command(cmd, cwd)` in the source. -/
structure Step where
  cmd : String
  cwd : String
deriving DecidableEq

/-- One console print event of the script; one constructor per distinct
`print` call in `scripts/setup.py`, carrying the varying text. -/
inductive OutLine where
  | banner
  | header (text : String)
  | running (cmd : String)
  | okMark (cmd : String)
  | failMark (cmd : String)
  | errorText (stderrText : String)
  | exceptionMark (cmd : String) (message : String)
  | skipWarning (unitName : String)
  | successSummary
  | guidance (text : String)
  | errorSummary
deriving DecidableEq

/-- The facts about the environment a run of `main` observes: whether
`backend/package.json` and `frontend/package.json` are present, and what
the operating system does for each spawned step. -/
structure World where
  backendManifest : Bool
  frontendManifest : Bool
  exec : Step → ExecResult

/-- `run_command` from `scripts/setup.py`: prints `Running: {cmd}`, runs
the command; on exit code 0 prints the check mark and returns `True`;
on a non-zero exit code prints the cross mark and the captured stderr
and returns `False`; if the process cannot be launched the exception is
caught, printed, and `False` is returned.  Result: the returned boolean
paired with the print events, in order. -/
def run_command (cmd : String) (res : ExecResult) : Bool × List OutLine :=
  match res with
  | .completed exitCode stderrText =>
      if exitCode = 0 then
        (true, [.running cmd, .okMark cmd])
      else
        (false, [.running cmd, .failMark cmd, .errorText stderrText])
  | .launchFailure message =>
      (false, [.running cmd, .exceptionMark cmd message])

/-- The backend `npm install` step. -/
def backendInstall : Step := ⟨"npm install", "backend"⟩

/-- The backend `npm test -- --run` step. -/
def backendTest : Step := ⟨"npm test -- --run", "backend"⟩

/-- The backend `npm run build` step. -/
def backendBuild : Step := ⟨"npm run build", "backend"⟩

/-- The frontend `npm install` step. -/
def frontendInstall : Step := ⟨"npm install", "frontend"⟩

/-- The frontend `npm run build` step. -/
def frontendBuild : Step := ⟨"npm run build", "frontend"⟩

/-- The boolean `run_command` returns for step `s` in world `w`. -/
def stepOk (w : World) (s : Step) : Bool :=
  (run_command s.cmd (w.exec s)).1

/-- Sequencer state accumulated across the two unit blocks of `main`:
the steps launched so far in order, the print events so far in order,
and the `success` accumulator. -/
structure SeqState where
  executed : List Step
  output : List OutLine
  success : Bool
deriving DecidableEq

/-- State after the backend block of `main`: if
`backend_dir.exists() and (backend_dir / "package.json").exists()`, the
three backend steps run in order with their headers, each result folded
into `success`; otherwise the warning is printed and nothing else
happens. -/
def afterBackend (w : World) : SeqState :=
  if w.backendManifest then
    let r₁ := run_command backendInstall.cmd (w.exec backendInstall)
    let r₂ := run_command backendTest.cmd (w.exec backendTest)
    let r₃ := run_command backendBuild.cmd (w.exec backendBuild)
    { executed := [backendInstall, backendTest, backendBuild]
      output := [OutLine.banner]
        ++ [OutLine.header "📦 Installing backend dependencies..."] ++ r₁.2
        ++ [OutLine.header "🧪 Running backend tests..."] ++ r₂.2
        ++ [OutLine.header "🔨 Building backend..."] ++ r₃.2
      success := true && r₁.1 && r₂.1 && r₃.1 }
  else
    { executed := []
      output := [OutLine.banner, OutLine.skipWarning "backend"]
      success := true }

/-- State after the frontend block of `main`: if
`frontend_dir.exists() and (frontend_dir / "package.json").exists()`,
the two frontend steps run in order with their headers, folded into
`success`; otherwise the warning is printed. -/
def afterFrontend (w : World) : SeqState :=
  let t := afterBackend w
  if w.frontendManifest then
    let r₄ := run_command frontendInstall.cmd (w.exec frontendInstall)
    let r₅ := run_command frontendBuild.cmd (w.exec frontendBuild)
    { executed := t.executed ++ [frontendInstall, frontendBuild]
      output := t.output
        ++ [OutLine.header "🎨 Installing frontend dependencies..."] ++ r₄.2
        ++ [OutLine.header "🔨 Building frontend..."] ++ r₅.2
      success := t.success && r₄.1 && r₅.1 }
  else
    { t with output := t.output ++ [OutLine.skipWarning "frontend"] }

/-- Full observable result of one run of `main`. -/
structure Trace where
  executed : List Step
  output : List OutLine
  success : Bool
  exitCode : Nat
deriving DecidableEq

/-- `main` from `scripts/setup.py`: the banner and the two unit blocks
(`afterBackend`, `afterFrontend`), then on `success` the completion
summary and the three next-step guidance lines with implicit exit
status 0, and otherwise the error summary followed by `sys.exit(1)`. -/
def main (w : World) : Trace :=
  let t := afterFrontend w
  if t.success then
    { executed := t.executed
      output := t.output
        ++ [OutLine.successSummary, OutLine.header "📖 Next steps:",
            OutLine.guidance "1. Backend: cd backend && npm run dev",
            OutLine.guidance "2. Frontend: cd frontend && npm run dev",
            OutLine.guidance "3. Configure .env files for optional integrations"]
      success := t.success
      exitCode := 0 }
  else
    { executed := t.executed
      output := t.output ++ [OutLine.errorSummary]
      success := t.success
      exitCode := 1 }

/-- The fixed declared backend step list. -/
def backendSteps : List Step := [backendInstall, backendTest, backendBuild]

/-- The fixed declared frontend step list. -/
def frontendSteps : List Step := [frontendInstall, frontendBuild]

/-- A Python `bool` seen as the `int` the bitwise `&` operates on:
`True` is `1`, `False` is `0`. -/
def pyInt (b : Bool) : Nat := if b then 1 else 0

/-- The imperative accumulation `success &= r` of `main`, taken
literally as Python bitwise AND over the 0/1 integer encoding of the
step outcomes, starting from `True` (= 1). -/
def bitwiseAccum (outcomes : List Bool) : Nat :=
  outcomes.foldl (fun acc b => Nat.land acc (pyInt b)) 1

/-- Concrete world: both manifests present, every command exits 0. -/
def wAllOk : World := ⟨true, true, fun _ => ExecResult.completed 0 ""⟩

/-- Concrete world: both manifests present, each `npm install` step
exits 1 with stderr `boom`, every other command exits 0. -/
def wInstallFails : World :=
  ⟨true, true, fun s =>
    if s.cmd = "npm install" then ExecResult.completed 1 "boom"
    else ExecResult.completed 0 ""⟩

/-- Concrete world: both manifests present, every process launch fails. -/
def wLaunchFails : World :=
  ⟨true, true, fun _ => ExecResult.launchFailure "npm missing"⟩

/-- Concrete world: both manifests absent. -/
def wBothAbsent : World := ⟨false, false, fun _ => ExecResult.completed 0 ""⟩

/-! ## Characterization lemmas -/

lemma afterBackend_executed (w : World) :
    (afterBackend w).executed = if w.backendManifest then backendSteps else [] := by
  unfold afterBackend backendSteps
  cases hb : w.backendManifest <;> simp [hb]

lemma afterBackend_success (w : World) :
    (afterBackend w).success =
      if w.backendManifest then
        stepOk w backendInstall && stepOk w backendTest && stepOk w backendBuild
      else true := by
  unfold afterBackend stepOk
  cases hb : w.backendManifest <;> simp [hb]

lemma afterFrontend_executed (w : World) :
    (afterFrontend w).executed =
      (if w.backendManifest then backendSteps else []) ++
      (if w.frontendManifest then frontendSteps else []) := by
  unfold afterFrontend frontendSteps
  cases hf : w.frontendManifest <;> simp [hf, afterBackend_executed]

lemma afterFrontend_success (w : World) :
    (afterFrontend w).success =
      ((if w.backendManifest then
        stepOk w backendInstall && stepOk w backendTest && stepOk w backendBuild
      else true) &&
      (if w.frontendManifest then
        stepOk w frontendInstall && stepOk w frontendBuild
      else true)) := by
  unfold afterFrontend
  cases hb : w.backendManifest <;> cases hf : w.frontendManifest <;>
    simp [hb, hf, afterBackend_success, stepOk, Bool.and_assoc]

lemma main_executed_eq (w : World) :
    (main w).executed = (afterFrontend w).executed := by
  simp only [main]
  split <;> rfl

lemma main_output_eq (w : World) :
    (main w).output =
      (afterFrontend w).output ++
        (if (afterFrontend w).success then
          [OutLine.successSummary, OutLine.header "📖 Next steps:",
            OutLine.guidance "1. Backend: cd backend && npm run dev",
            OutLine.guidance "2. Frontend: cd frontend && npm run dev",
            OutLine.guidance "3. Configure .env files for optional integrations"]
        else [OutLine.errorSummary]) := by
  simp only [main]
  split
  · next h => simp [h]
  · next h => simp [h]

lemma main_executed (w : World) :
    (main w).executed =
      (if w.backendManifest then backendSteps else []) ++
      (if w.frontendManifest then frontendSteps else []) := by
  rw [main_executed_eq, afterFrontend_executed]

lemma main_success (w : World) :
    (main w).success = (afterFrontend w).success := by
  simp only [main]
  split <;> rfl

lemma main_success_all (w : World) :
    (main w).success = (main w).executed.all (stepOk w) := by
  rw [main_success, afterFrontend_success, main_executed]
  cases hb : w.backendManifest <;> cases hf : w.frontendManifest <;>
    simp [backendSteps, frontendSteps, Bool.and_assoc]

lemma main_exitCode (w : World) :
    (main w).exitCode = if (main w).success then 0 else 1 := by
  rw [main_success]
  simp only [main]
  split
  · next h => simp [h]
  · next h => simp [h]

/-! ## Output membership lemmas -/

lemma mem_run_command (cmd : String) (res : ExecResult) (l : OutLine) :
    l ∈ (run_command cmd res).2 →
      l = OutLine.running cmd ∨ l = OutLine.okMark cmd ∨ l = OutLine.failMark cmd ∨
      (∃ s, l = OutLine.errorText s) ∨ (∃ m, l = OutLine.exceptionMark cmd m) := by
  cases res with
  | completed code serr =>
      by_cases h : code = 0 <;> simp [run_command, h] <;> tauto
  | launchFailure m =>
      simp [run_command]
      tauto

lemma errorSummary_not_mem_run (cmd : String) (res : ExecResult) :
    OutLine.errorSummary ∉ (run_command cmd res).2 := by
  intro h
  rcases mem_run_command _ _ _ h with h | h | h | ⟨s, h⟩ | ⟨m, h⟩ <;> simp at h

lemma successSummary_not_mem_run (cmd : String) (res : ExecResult) :
    OutLine.successSummary ∉ (run_command cmd res).2 := by
  intro h
  rcases mem_run_command _ _ _ h with h | h | h | ⟨s, h⟩ | ⟨m, h⟩ <;> simp at h

lemma guidance_not_mem_run (cmd : String) (res : ExecResult) (t : String) :
    OutLine.guidance t ∉ (run_command cmd res).2 := by
  intro h
  rcases mem_run_command _ _ _ h with h | h | h | ⟨s, h⟩ | ⟨m, h⟩ <;> simp at h

lemma skipWarning_not_mem_run (cmd : String) (res : ExecResult) (u : String) :
    OutLine.skipWarning u ∉ (run_command cmd res).2 := by
  intro h
  rcases mem_run_command _ _ _ h with h | h | h | ⟨s, h⟩ | ⟨m, h⟩ <;> simp at h

lemma errorSummary_not_mem_afterFrontend (w : World) :
    OutLine.errorSummary ∉ (afterFrontend w).output := by
  unfold afterFrontend afterBackend
  cases hb : w.backendManifest <;> cases hf : w.frontendManifest <;>
    simp [hb, hf, errorSummary_not_mem_run]

lemma successSummary_not_mem_afterFrontend (w : World) :
    OutLine.successSummary ∉ (afterFrontend w).output := by
  unfold afterFrontend afterBackend
  cases hb : w.backendManifest <;> cases hf : w.frontendManifest <;>
    simp [hb, hf, successSummary_not_mem_run]

lemma guidance_not_mem_afterFrontend (w : World) (t : String) :
    OutLine.guidance t ∉ (afterFrontend w).output := by
  unfold afterFrontend afterBackend
  cases hb : w.backendManifest <;> cases hf : w.frontendManifest <;>
    simp [hb, hf, guidance_not_mem_run]

lemma skipWarning_mem_afterFrontend (w : World) (u : String) :
    OutLine.skipWarning u ∈ (afterFrontend w).output ↔
      (u = "backend" ∧ w.backendManifest = false) ∨
      (u = "frontend" ∧ w.frontendManifest = false) := by
  unfold afterFrontend afterBackend
  cases hb : w.backendManifest <;> cases hf : w.frontendManifest <;>
    simp [hb, hf, skipWarning_not_mem_run]

lemma errorSummary_mem_main (w : World) :
    OutLine.errorSummary ∈ (main w).output ↔ (main w).success = false := by
  rw [main_output_eq, main_success]
  cases hs : (afterFrontend w).success <;>
    simp [hs, errorSummary_not_mem_afterFrontend]

lemma guidance_mem_main (w : World) :
    (∃ t, OutLine.guidance t ∈ (main w).output) ↔ (main w).success = true := by
  rw [main_output_eq, main_success]
  cases hs : (afterFrontend w).success <;>
    simp [hs, guidance_not_mem_afterFrontend]

lemma skipWarning_mem_main (w : World) (u : String) :
    OutLine.skipWarning u ∈ (main w).output ↔
      (u = "backend" ∧ w.backendManifest = false) ∨
      (u = "frontend" ∧ w.frontendManifest = false) := by
  rw [main_output_eq]
  cases hs : (afterFrontend w).success <;>
    simp [hs, skipWarning_mem_afterFrontend]

/-! ## Fold helpers -/

lemma foldl_and_eq_all {α : Type} (p : α → Bool) (l : List α) (acc : Bool) :
    l.foldl (fun a s => a && p s) acc = (acc && l.all p) := by
  induction l generalizing acc with
  | nil => simp
  | cons x xs ih => simp [List.foldl_cons, ih, Bool.and_assoc]

lemma all_map_self {α : Type} (p : α → Bool) (l : List α) :
    (l.map p).all (fun b => b) = l.all p := by
  induction l with
  | nil => rfl
  | cons x xs ih => simp [ih]

lemma land_pyInt (a b : Bool) : Nat.land (pyInt a) (pyInt b) = pyInt (a && b) := by
  cases a <;> cases b <;> rfl

lemma bitwiseAccum_general (l : List Bool) (acc : Bool) :
    l.foldl (fun a b => Nat.land a (pyInt b)) (pyInt acc) =
      pyInt (l.foldl (fun a b => a && b) acc) := by
  induction l generalizing acc with
  | nil => rfl
  | cons x xs ih =>
      rw [List.foldl_cons, List.foldl_cons, land_pyInt]
      exact ih (acc && x)

/-! ## Claims -/

/-- C1: for every run of `main`, the aggregate `overallSuccess` flag is
false iff `run_command` returned failure for at least one executed step;
equivalently it is the logical AND, starting from `true`, of the
success flags of exactly the executed steps, regardless of which
position a failing step occupies. -/
theorem overallSuccess_iff_executed_failure (w : World) :
    ((main w).success = false ↔ ∃ s ∈ (main w).executed, stepOk w s = false) ∧
    (main w).success = (main w).executed.foldl (fun acc s => acc && stepOk w s) true := by
  constructor
  · rw [main_success_all]
    simp [List.all_eq_false]
  · rw [main_success_all, foldl_and_eq_all]
    simp

/-- C2: for every unit whose manifest is present, all of that unit's
declared steps are executed in their fixed declared order even when an
earlier step of the same unit fails: with the backend manifest present
the executed sequence opens with install, test, build, and a failing
backend install still leaves test and build executed; with the
frontend manifest present the executed sequence ends with install then
build, and a failing frontend install still leaves build executed —
step execution never short-circuits on failure. -/
theorem steps_no_short_circuit (w : World) :
    (w.backendManifest = true →
      ((main w).executed.take 3 = [backendInstall, backendTest, backendBuild] ∧
       (stepOk w backendInstall = false →
         backendTest ∈ (main w).executed ∧ backendBuild ∈ (main w).executed))) ∧
    (w.frontendManifest = true →
      ((main w).executed.drop (if w.backendManifest then 3 else 0) =
         [frontendInstall, frontendBuild] ∧
       (stepOk w frontendInstall = false →
         frontendBuild ∈ (main w).executed))) := by
  constructor
  · intro hb
    rw [main_executed, hb]
    cases hf : w.frontendManifest <;> simp [backendSteps, frontendSteps]
  · intro hf
    rw [main_executed, hf]
    cases hb : w.backendManifest <;> simp [hb, backendSteps, frontendSteps]

/-- Witness for C2: in `wInstallFails` both manifests are present and
both install steps fail, yet backend test, backend build and frontend
build are all still executed. -/
theorem steps_no_short_circuit_witness :
    wInstallFails.backendManifest = true ∧
    wInstallFails.frontendManifest = true ∧
    stepOk wInstallFails backendInstall = false ∧
    stepOk wInstallFails frontendInstall = false ∧
    backendTest ∈ (main wInstallFails).executed ∧
    backendBuild ∈ (main wInstallFails).executed ∧
    frontendBuild ∈ (main wInstallFails).executed := by
  have h := steps_no_short_circuit wInstallFails
  have hb := h.1 rfl
  have hf := h.2 rfl
  have hfailb : stepOk wInstallFails backendInstall = false := by decide
  have hfailf : stepOk wInstallFails frontendInstall = false := by decide
  exact ⟨rfl, rfl, hfailb, hfailf, (hb.2 hfailb).1, (hb.2 hfailb).2, hf.2 hfailf⟩

/-- C3: the process exits with status 0 exactly when `overallSuccess`
is true and with status 1 when it is false; the next-step guidance
block is printed only in the success case, and in the failure case the
error-summary line is printed instead. -/
theorem exit_contract (w : World) :
    (main w).exitCode = (if (main w).success then 0 else 1) ∧
    ((∃ t, OutLine.guidance t ∈ (main w).output) ↔ (main w).success = true) ∧
    (OutLine.errorSummary ∈ (main w).output ↔ (main w).success = false) :=
  ⟨main_exitCode w, guidance_mem_main w, errorSummary_mem_main w⟩

/-- C4: a step whose process cannot be launched is caught inside
`run_command`, which logs the error text and returns the boolean
`false` (a total function, so no exception propagates to `main`), and
the sequencer still executes the full step list determined by the
manifests. -/
theorem launch_failure_contained (w : World) (s : Step) (msg : String)
    (h : w.exec s = ExecResult.launchFailure msg) :
    run_command s.cmd (w.exec s) =
      (false, [OutLine.running s.cmd, OutLine.exceptionMark s.cmd msg]) ∧
    (main w).executed =
      ((if w.backendManifest then backendSteps else []) ++
       (if w.frontendManifest then frontendSteps else [])) :=
  ⟨by rw [h]; rfl, main_executed w⟩

/-- Witness for C4: in `wLaunchFails` the backend install launch fails,
`run_command` returns `false` with the logged exception, and all five
steps are still executed. -/
theorem launch_failure_contained_witness :
    wLaunchFails.exec backendInstall = ExecResult.launchFailure "npm missing" ∧
    run_command backendInstall.cmd (wLaunchFails.exec backendInstall) =
      (false, [OutLine.running backendInstall.cmd,
        OutLine.exceptionMark backendInstall.cmd "npm missing"]) ∧
    (main wLaunchFails).executed = backendSteps ++ frontendSteps := by
  have h := launch_failure_contained wLaunchFails backendInstall "npm missing" rfl
  exact ⟨rfl, h.1, by rw [h.2]; rfl⟩

/-- C5: a unit whose manifest is absent is skipped entirely: none of
its steps is executed, a warning naming the unit is printed, and the
aggregate success is exactly what the other unit alone contributes, so
a skipped unit alone never makes `overallSuccess` false. -/
theorem skipped_unit_frame (w : World) :
    (w.backendManifest = false →
      ((∀ s ∈ backendSteps, s ∉ (main w).executed) ∧
       OutLine.skipWarning "backend" ∈ (main w).output ∧
       (main w).success =
         (if w.frontendManifest then frontendSteps.all (stepOk w) else true))) ∧
    (w.frontendManifest = false →
      ((∀ s ∈ frontendSteps, s ∉ (main w).executed) ∧
       OutLine.skipWarning "frontend" ∈ (main w).output ∧
       (main w).success =
         (if w.backendManifest then backendSteps.all (stepOk w) else true))) := by
  constructor
  · intro hb
    refine ⟨?_, ?_, ?_⟩
    · intro s hs
      rw [main_executed, hb]
      fin_cases hs <;> cases hf : w.frontendManifest <;>
        simp [frontendSteps] <;> decide
    · exact (skipWarning_mem_main w "backend").2 (Or.inl ⟨rfl, hb⟩)
    · rw [main_success, afterFrontend_success, hb]
      cases hf : w.frontendManifest <;>
        simp [frontendSteps, Bool.and_assoc]
  · intro hf
    refine ⟨?_, ?_, ?_⟩
    · intro s hs
      rw [main_executed, hf]
      fin_cases hs <;> cases hb : w.backendManifest <;>
        simp [backendSteps] <;> decide
    · exact (skipWarning_mem_main w "frontend").2 (Or.inr ⟨rfl, hf⟩)
    · rw [main_success, afterFrontend_success, hf]
      cases hb : w.backendManifest <;>
        simp [backendSteps, Bool.and_assoc]

/-- Witness for C5: with both manifests absent, both warnings are
printed and `overallSuccess` stays true. -/
theorem skipped_unit_frame_witness :
    OutLine.skipWarning "backend" ∈ (main wBothAbsent).output ∧
    OutLine.skipWarning "frontend" ∈ (main wBothAbsent).output ∧
    (main wBothAbsent).success = true := by
  have h := skipped_unit_frame wBothAbsent
  have h1 := h.1 rfl
  have h2 := h.2 rfl
  exact ⟨h1.2.1, h2.2.1, by rw [h1.2.2]; rfl⟩

/-- C6: `run_command` returns `true` iff the exit code of the spawned
process is exactly zero; every non-zero exit code yields `false`, and then
the captured stderr text is additionally printed. -/
theorem step_success_iff_exit_zero (cmd stderrText : String) (code : Int) :
    ((run_command cmd (ExecResult.completed code stderrText)).1 = true ↔ code = 0) ∧
    (code ≠ 0 →
      OutLine.errorText stderrText ∈
        (run_command cmd (ExecResult.completed code stderrText)).2) := by
  by_cases h : code = 0 <;> simp [run_command, h]

/-- Witness for C6: exit code 2 yields `false` and the stderr text
appears in the printed lines. -/
theorem step_success_iff_exit_zero_witness :
    (run_command "npm install" (ExecResult.completed 2 "ENOENT")).1 = false ∧
    OutLine.errorText "ENOENT" ∈
      (run_command "npm install" (ExecResult.completed 2 "ENOENT")).2 := by
  have h := step_success_iff_exit_zero "npm install" "ENOENT" 2
  exact ⟨by decide, h.2 (by decide)⟩

/-- C7: the executed sequence is always the backend unit steps (in
the fixed order install, test, build) followed by the frontend unit
steps (in the fixed order install, build), each present exactly when
its manifest is; in particular the frontend unit contributes exactly
two steps when present, never three. -/
theorem fixed_unit_and_step_order (w : World) :
    (main w).executed =
      ((if w.backendManifest then [backendInstall, backendTest, backendBuild] else []) ++
       (if w.frontendManifest then [frontendInstall, frontendBuild] else [])) ∧
    ((main w).executed.filter (fun s => s.cwd == "frontend")).length =
      (if w.frontendManifest then 2 else 0) := by
  refine ⟨by rw [main_executed]; rfl, ?_⟩
  rw [main_executed]
  cases hb : w.backendManifest <;> cases hf : w.frontendManifest <;>
    simp [backendSteps, frontendSteps] <;> decide

/-- C8: the sequence of launched steps is determined by the two
manifest-presence facts alone: two worlds agreeing on them launch the
same steps in the same order, regardless of what the spawned processes
do. -/
theorem deterministic_step_sequence (w₁ w₂ : World)
    (hb : w₁.backendManifest = w₂.backendManifest)
    (hf : w₁.frontendManifest = w₂.frontendManifest) :
    (main w₁).executed = (main w₂).executed := by
  rw [main_executed, main_executed, hb, hf]

/-- Witness for C8: `wAllOk` and `wLaunchFails` agree on manifests but
differ in every process outcome, and launch the same step sequence. -/
theorem deterministic_step_sequence_witness :
    wAllOk.backendManifest = wLaunchFails.backendManifest ∧
    wAllOk.frontendManifest = wLaunchFails.frontendManifest ∧
    (main wAllOk).executed = (main wLaunchFails).executed :=
  ⟨rfl, rfl, deterministic_step_sequence wAllOk wLaunchFails rfl rfl⟩

/-- C9: the Python accumulation `success &= run_command(...)` — bitwise
AND over the 0/1 encoding of booleans, starting from `True` — computes
exactly the 0/1 encoding of the pure logical-AND fold over the executed
step outcomes with initial value `true`, and that fold is exactly
the final `overallSuccess` of `main`. -/
theorem bitwise_accum_refines_fold (w : World) :
    bitwiseAccum ((main w).executed.map (stepOk w)) =
      pyInt (((main w).executed.map (stepOk w)).foldl (fun a b => a && b) true) ∧
    ((main w).executed.map (stepOk w)).foldl (fun a b => a && b) true =
      (main w).success := by
  constructor
  · have h := bitwiseAccum_general ((main w).executed.map (stepOk w)) true
    simpa [bitwiseAccum, pyInt] using h
  · rw [foldl_and_eq_all, main_success_all, all_map_self]
    simp

/-- C10: per-unit execution is all-or-nothing — 3 or 0 backend
steps, 2 or 0 frontend steps, decided solely by its manifest — so the
total number of executed steps is exactly one of 0, 2, 3 or 5. -/
theorem executed_count (w : World) :
    (main w).executed.length =
      ((if w.backendManifest then 3 else 0) + (if w.frontendManifest then 2 else 0)) ∧
    ((main w).executed.length = 0 ∨ (main w).executed.length = 2 ∨
     (main w).executed.length = 3 ∨ (main w).executed.length = 5) := by
  have h : (main w).executed.length =
      ((if w.backendManifest then 3 else 0) + (if w.frontendManifest then 2 else 0)) := by
    rw [main_executed]
    cases hb : w.backendManifest <;> cases hf : w.frontendManifest <;>
      simp [backendSteps, frontendSteps]
  refine ⟨h, ?_⟩
  rw [h]
  cases hb : w.backendManifest <;> cases hf : w.frontendManifest <;> simp

end Oasis
